import Mathlib

/-!
Shallow embedding of the MS/TP BSD datalink port (`src/ports/bsd/dlmstp_port.c`)
and the Linux SNAP capture tool (`src/ports/linux/mstpsnap.c`) of the
bacnet-stack repository, together with proofs of the specified properties.

Byte buffers are modelled as `List Nat` (each entry one octet); reading a C
array cell is modelled by `byteAt`, which returns 0 out of range (theorems add
length hypotheses wherever the C code relies on valid memory).  State updates
are modelled by explicit state passing.  Repository code that is referenced
but not part of the port sources (the ring buffer, the NPDU decoder, the frame
codec, `bacnet_address_same`) is modelled from the specification document and
marked as such in its doc comment.
-/

/-- Read one octet of a C byte buffer; out-of-range reads yield 0. -/
def byteAt (l : List Nat) (i : Nat) : Nat :=
  l.getD i 0

/-- `MSTP_BROADCAST_ADDRESS` (255), per the spec addressing invariants. -/
def MSTP_BROADCAST_ADDRESS : Nat := 255

/-- `MAX_MAC_LEN` (7 octets), the size of the `mac`/`adr` arrays of a
`BACNET_ADDRESS`; modelled from the spec's addressing section. -/
def MAX_MAC_LEN : Nat := 7

/-- Modelled from the spec: the fixed capacity of the receive slot's `pdu`
array, `sizeof(Receive_Packet.pdu)`; the spec requires buffers of at least
501 octets (the maximal MS/TP payload). -/
def RX_PDU_SIZE : Nat := 501

/-- BACnet APDU type nibbles (high nibble of APDU octet 0). -/
def PDU_TYPE_CONFIRMED_SERVICE_REQUEST : Nat := 0x00

def PDU_TYPE_SIMPLE_ACK : Nat := 0x20

def PDU_TYPE_COMPLEX_ACK : Nat := 0x30

def PDU_TYPE_SEGMENT_ACK : Nat := 0x40

def PDU_TYPE_ERROR : Nat := 0x50

def PDU_TYPE_REJECT : Nat := 0x60

def PDU_TYPE_ABORT : Nat := 0x70

/-- MS/TP frame type for BACnet Data Expecting Reply (spec frame taxonomy). -/
def FRAME_TYPE_BACNET_DATA_EXPECTING_REPLY : Nat := 5

/-- MS/TP frame type for BACnet Data Not Expecting Reply. -/
def FRAME_TYPE_BACNET_DATA_NOT_EXPECTING_REPLY : Nat := 6

/-- The `BACNET_ADDRESS` structure: datalink MAC plus routed network info. -/
structure BACNET_ADDRESS where
  mac_len : Nat
  mac : List Nat
  net : Nat
  len : Nat
  adr : List Nat
deriving Repr, DecidableEq, Inhabited

/-- `dlmstp_fill_bacnet_address`: build the BACnet source address for an MS/TP
MAC; broadcast (255) gives `mac_len = 0`, unicast gives `mac_len = 1` with the
address in `mac[0]`; all other cells are zeroed. -/
def dlmstp_fill_bacnet_address (mstp_address : Nat) : BACNET_ADDRESS :=
  if mstp_address == MSTP_BROADCAST_ADDRESS then
    { mac_len := 0
      mac := 0 :: List.replicate (MAX_MAC_LEN - 1) 0
      net := 0
      len := 0
      adr := List.replicate MAX_MAC_LEN 0 }
  else
    { mac_len := 1
      mac := mstp_address :: List.replicate (MAX_MAC_LEN - 1) 0
      net := 0
      len := 0
      adr := List.replicate MAX_MAC_LEN 0 }

/-- One element of the outbound PDU ring (`struct mstp_pdu_packet`). -/
structure MstpPduPacket where
  buffer : List Nat
  length : Nat
  destination_mac : Nat
  data_expecting_reply : Bool
deriving Repr, DecidableEq, Inhabited

/-- The one-slot receive mailbox (`Receive_Packet` of `SHARED_MSTP_DATA`). -/
structure ReceivePacket where
  ready : Bool
  address : BACNET_ADDRESS
  pdu : List Nat
  pdu_len : Nat
deriving Repr, DecidableEq, Inhabited

/-- `dlmstp_send_pdu`: non-blocking enqueue onto the outbound PDU ring.
The ring buffer primitives (`Ringbuf_Data_Peek` reserving a free tail slot
when the ring is not full, `Ringbuf_Data_Put` committing it) are modelled
from the spec as a list bounded by the capacity `cap`
(`MSTP_PDU_PACKET_COUNT`).  Returns the pair (bytes sent, new ring). -/
def dlmstp_send_pdu (cap : Nat) (queue : List MstpPduPacket)
    (dest : BACNET_ADDRESS) (pdu : List Nat) (pdu_len : Nat) :
    Nat × List MstpPduPacket :=
  if queue.length < cap then
    let pkt : MstpPduPacket :=
      { data_expecting_reply := Nat.land (byteAt pdu 1) 4 != 0
        buffer := pdu.take pdu_len
        length := pdu_len
        destination_mac := byteAt dest.mac 0 }
    (pdu_len, queue ++ [pkt])
  else
    (0, queue)

/-- Result of `MSTP_Put_Receive`: returned length, updated receive slot, and
whether the receive semaphore was signalled. -/
structure PutReceiveResult where
  ret : Nat
  slot : ReceivePacket
  signalled : Bool
deriving Repr, DecidableEq

/-- `MSTP_Put_Receive`: deposit the frame in `InputBuffer` (length
`dataLength`, source MAC `sourceAddr`) into the receive slot, unless the slot
is still `ready`, in which case the frame is dropped.  The copy is bounded by
`sizeof(Receive_Packet.pdu)`; cells of the slot past the copy keep their old
contents. -/
def MSTP_Put_Receive (input : List Nat) (dataLength sourceAddr : Nat)
    (slot : ReceivePacket) : PutReceiveResult :=
  if slot.ready then
    { ret := 0, slot := slot, signalled := false }
  else
    let n := if dataLength > RX_PDU_SIZE then RX_PDU_SIZE else dataLength
    { ret := n
      slot :=
        { pdu := List.take n input ++ List.drop n slot.pdu
          address := dlmstp_fill_bacnet_address sourceAddr
          pdu_len := dataLength
          ready := true }
      signalled := true }

/-- Result of `dlmstp_receive`: return value, the octets written through the
`src` and `pdu` out-pointers (`none` when the code does not write them), the
updated receive slot and the updated `MSTP_Packets` counter. -/
structure ReceiveResult where
  ret : Nat
  src_out : Option BACNET_ADDRESS
  pdu_out : Option (List Nat)
  slot : ReceivePacket
  mstp_packets : Nat
deriving Repr, DecidableEq

/-- `dlmstp_receive`: wait on the receive semaphore (the wait outcome is the
boolean input `waitOk`; the deadline computation is `get_abstime` below).  On
success with a ready, non-empty slot, copy the slot's address and the whole
`pdu` array out, clear `ready`, and return the slot's `pdu_len`.  The
`max_pdu` argument is accepted and ignored, as in the source
(`(void)max_pdu`). -/
def dlmstp_receive (slot : ReceivePacket) (packets : Nat) (max_pdu : Nat)
    (waitOk : Bool) : ReceiveResult :=
  if waitOk then
    if slot.ready then
      if slot.pdu_len != 0 then
        { ret := slot.pdu_len
          src_out := some slot.address
          pdu_out := some slot.pdu
          slot := { slot with ready := false }
          mstp_packets := packets + 1 }
      else
        { ret := 0
          src_out := none
          pdu_out := none
          slot := { slot with ready := false }
          mstp_packets := packets }
    else
      { ret := 0, src_out := none, pdu_out := none, slot := slot
        mstp_packets := packets }
  else
    { ret := 0, src_out := none, pdu_out := none, slot := slot
      mstp_packets := packets }

/-- Nanoseconds per second, as in the source. -/
def NS_PER_S : Int := 1000000000

/-- A `struct timespec` value. -/
structure Timespec where
  tv_sec : Int
  tv_nsec : Int
deriving Repr, DecidableEq

/-- Total nanoseconds represented by a timespec. -/
def Timespec.toNanos (ts : Timespec) : Int :=
  ts.tv_sec * NS_PER_S + ts.tv_nsec

/-- `timespec_add_ns`: add `ns` nanoseconds (within plus or minus one second)
to a timespec, normalising the nanosecond field once. -/
def timespec_add_ns (ts : Timespec) (ns : Int) : Timespec :=
  let n := ts.tv_nsec + ns
  if n > NS_PER_S then
    { tv_sec := ts.tv_sec + 1, tv_nsec := n - NS_PER_S }
  else if n < 0 then
    { tv_sec := ts.tv_sec - 1, tv_nsec := n + NS_PER_S }
  else
    { ts with tv_nsec := n }

/-- `get_abstime`: compute the absolute semaphore deadline from the current
monotonic time `now` and a relative timeout in milliseconds, limited to
1000 ms. -/
def get_abstime (now : Timespec) (milliseconds : Nat) : Timespec :=
  let ms := if milliseconds > 1000 then 1000 else milliseconds
  timespec_add_ns now (1000000 * (ms : Int))

/-- The termios baud constants used by the port; on BSD these equal the
numeric rates (their exact values are irrelevant to the proofs, only their
distinctness is used). -/
def B9600 : Nat := 9600

def B19200 : Nat := 19200

def B38400 : Nat := 38400

def B57600 : Nat := 57600

def B115200 : Nat := 115200

/-- The shared-data fields relevant to baud configuration. -/
structure RS485Config where
  RS485_Baud : Nat
deriving Repr, DecidableEq

/-- `dlmstp_set_baud_rate`: map a numeric rate onto the termios constant;
rates not in the switch fall through to `default` and leave the
configuration unchanged. -/
def dlmstp_set_baud_rate (s : RS485Config) (baud : Nat) : RS485Config :=
  if baud == 9600 then { s with RS485_Baud := B9600 }
  else if baud == 19200 then { s with RS485_Baud := B19200 }
  else if baud == 38400 then { s with RS485_Baud := B38400 }
  else if baud == 57600 then { s with RS485_Baud := B57600 }
  else if baud == 115200 then { s with RS485_Baud := B115200 }
  else s

/-- `dlmstp_baud_rate`: read the configured rate back from the termios
constant; unknown constants (and `B9600`) read as 9600. -/
def dlmstp_baud_rate (s : RS485Config) : Nat :=
  if s.RS485_Baud == B19200 then 19200
  else if s.RS485_Baud == B38400 then 38400
  else if s.RS485_Baud == B57600 then 57600
  else if s.RS485_Baud == B115200 then 115200
  else 9600

/-- The `mstp_port_struct_t` fields relevant to address configuration. -/
structure MstpPortConfig where
  This_Station : Nat
  Nmax_master : Nat
  Nmax_info_frames : Nat
deriving Repr, DecidableEq

/-- `dlmstp_set_max_master`: accept only values that are at most 127 and at
least `This_Station`. -/
def dlmstp_set_max_master (s : MstpPortConfig) (max_master : Nat) :
    MstpPortConfig :=
  if max_master ≤ 127 then
    if s.This_Station ≤ max_master then { s with Nmax_master := max_master }
    else s
  else s

/-- `dlmstp_set_mac_address`: accept only addresses at most 127; after setting
`This_Station`, raise `Nmax_master` via `dlmstp_set_max_master` when the new
address exceeds it. -/
def dlmstp_set_mac_address (s : MstpPortConfig) (mac_address : Nat) :
    MstpPortConfig :=
  if mac_address ≤ 127 then
    let s1 := { s with This_Station := mac_address }
    if mac_address > s.Nmax_master then dlmstp_set_max_master s1 mac_address
    else s1
  else s

/-- Modelled from the spec: the outputs of one call to `bacnet_npdu_decode`
(the host's upper BACnet NPDU decoder, an external collaborator per the spec's
scope section).  `offset` is the returned APDU offset; `src_*` are the fields
the decoder writes into the source-address argument, `dest_*` those written
into the destination-address argument (the datalink `mac`/`mac_len` fields
are not touched by the decoder). -/
structure NpduInfo where
  offset : Nat
  network_layer_message : Bool
  protocol_version : Nat
  src_net : Nat
  src_len : Nat
  src_adr : List Nat
  dest_net : Nat
  dest_len : Nat
  dest_adr : List Nat
deriving Repr, DecidableEq, Inhabited

/-- An abstract NPDU decoder: the results of `bacnet_npdu_decode` as a
function of the PDU bytes and length. -/
def NpduDecoder : Type := List Nat → Nat → NpduInfo

/-- Modelled from the spec: `bacnet_address_same` (rule 4 of the reply-match
predicate, "BACnet addresses are equal"): the MAC prefix of `mac_len` octets,
the network number, and the routed-address prefix of `len` octets must
coincide. -/
def bacnet_address_same (a b : BACNET_ADDRESS) : Bool :=
  a.net == b.net && a.mac_len == b.mac_len &&
  a.mac.take a.mac_len == b.mac.take b.mac_len &&
  a.len == b.len && a.adr.take a.len == b.adr.take b.len

/-- The request-side address assembled by `dlmstp_compare_data_expecting_reply`:
`mac[0]` is the source MAC of the inbound frame, `mac_len = 1`, and the
remaining fields are written by the decoder (only the initialised `mac`
prefix is listed; `bacnet_address_same` never reads past `mac_len`). -/
def der_request_address (δ : NpduDecoder) (request_pdu : List Nat)
    (request_pdu_len src_address : Nat) : BACNET_ADDRESS :=
  { mac_len := 1
    mac := [src_address]
    net := (δ request_pdu request_pdu_len).src_net
    len := (δ request_pdu request_pdu_len).src_len
    adr := (δ request_pdu request_pdu_len).src_adr }

/-- The reply-side address assembled by `dlmstp_compare_data_expecting_reply`:
`mac[0]` is the queued packet's destination MAC, `mac_len = 1`, and the
remaining fields are written by the decoder. -/
def der_reply_address (δ : NpduDecoder) (reply_pdu : List Nat)
    (reply_pdu_len dest_address : Nat) : BACNET_ADDRESS :=
  { mac_len := 1
    mac := [dest_address]
    net := (δ reply_pdu reply_pdu_len).dest_net
    len := (δ reply_pdu reply_pdu_len).dest_len
    adr := (δ reply_pdu reply_pdu_len).dest_adr }

/-- The common tail of the reply-match predicate: invoke-id equality, optional
service-choice equality (skipped for Reject, Abort and Segment-ACK replies),
NPDU protocol-version equality and BACnet address equality, in the order the
source checks them. -/
def der_compare_finish (req_invoke req_service : Nat)
    (rep_invoke : Nat) (rep_service : Option Nat)
    (req_version rep_version : Nat) (req_addr rep_addr : BACNET_ADDRESS) :
    Bool :=
  (req_invoke == rep_invoke) &&
  (match rep_service with
   | none => true
   | some s => req_service == s) &&
  (req_version == rep_version) &&
  bacnet_address_same req_addr rep_addr

/-- `dlmstp_compare_data_expecting_reply`: decide whether a queued reply PDU
answers the DER request PDU, parameterised by the abstract NPDU decoder. -/
def dlmstp_compare_data_expecting_reply (δ : NpduDecoder)
    (request_pdu : List Nat) (request_pdu_len src_address : Nat)
    (reply_pdu : List Nat) (reply_pdu_len dest_address : Nat) : Bool :=
  let reqN := δ request_pdu request_pdu_len
  if reqN.network_layer_message then false
  else
    let ro := reqN.offset
    let req_pdu_type := Nat.land (byteAt request_pdu ro) 0xF0
    if req_pdu_type != PDU_TYPE_CONFIRMED_SERVICE_REQUEST then false
    else
      let req_invoke := byteAt request_pdu (ro + 2)
      let req_service :=
        if Nat.land (byteAt request_pdu ro) 8 != 0 then
          byteAt request_pdu (ro + 5)
        else
          byteAt request_pdu (ro + 3)
      let repN := δ reply_pdu reply_pdu_len
      if repN.network_layer_message then false
      else
        let po := repN.offset
        let rep_pdu_type := Nat.land (byteAt reply_pdu po) 0xF0
        let req_addr :=
          der_request_address δ request_pdu request_pdu_len src_address
        let rep_addr :=
          der_reply_address δ reply_pdu reply_pdu_len dest_address
        if rep_pdu_type == PDU_TYPE_SIMPLE_ACK then
          der_compare_finish req_invoke req_service
            (byteAt reply_pdu (po + 1)) (some (byteAt reply_pdu (po + 2)))
            reqN.protocol_version repN.protocol_version req_addr rep_addr
        else if rep_pdu_type == PDU_TYPE_COMPLEX_ACK then
          der_compare_finish req_invoke req_service
            (byteAt reply_pdu (po + 1))
            (some
              (if Nat.land (byteAt reply_pdu po) 8 != 0 then
                byteAt reply_pdu (po + 4)
              else
                byteAt reply_pdu (po + 2)))
            reqN.protocol_version repN.protocol_version req_addr rep_addr
        else if rep_pdu_type == PDU_TYPE_ERROR then
          der_compare_finish req_invoke req_service
            (byteAt reply_pdu (po + 1)) (some (byteAt reply_pdu (po + 2)))
            reqN.protocol_version repN.protocol_version req_addr rep_addr
        else if rep_pdu_type == PDU_TYPE_REJECT ||
            rep_pdu_type == PDU_TYPE_ABORT ||
            rep_pdu_type == PDU_TYPE_SEGMENT_ACK then
          der_compare_finish req_invoke req_service
            (byteAt reply_pdu (po + 1)) none
            reqN.protocol_version repN.protocol_version req_addr rep_addr
        else
          false

/-- Modelled from the spec: `MSTP_Create_Frame` returns the number of emitted
octets; it fails (returns 0) when the payload exceeds 501 octets or the output
buffer is smaller than `8 + length + 2`; otherwise it emits the 8-octet
header-with-preamble plus, when data is present, the data octets and the
2-octet data CRC. -/
def MSTP_Create_Frame (out_size frame_type dest src data_len : Nat) : Nat :=
  if data_len > 501 then 0
  else if out_size < 8 + data_len + 2 then 0
  else 8 + data_len + (if data_len > 0 then 2 else 0)

/-- The frame type chosen for a queued packet by `MSTP_Get_Send` and
`MSTP_Get_Reply`, from its `data_expecting_reply` flag. -/
def mstp_frame_type_of (pkt : MstpPduPacket) : Nat :=
  if pkt.data_expecting_reply then FRAME_TYPE_BACNET_DATA_EXPECTING_REPLY
  else FRAME_TYPE_BACNET_DATA_NOT_EXPECTING_REPLY

/-- The match test `MSTP_Get_Reply` applies to one queued packet: compare the
DER request currently in `InputBuffer` against the packet's payload. -/
def mstp_reply_matches (δ : NpduDecoder) (input : List Nat)
    (dataLength sourceAddr : Nat) (pkt : MstpPduPacket) : Bool :=
  dlmstp_compare_data_expecting_reply δ input dataLength sourceAddr
    pkt.buffer pkt.length pkt.destination_mac

/-- The head-to-tail walk of `MSTP_Get_Reply` over the PDU ring
(`Ringbuf_Peek` / `Ringbuf_Peek_Next`, modelled from the spec as traversal in
queue order), combined with `Ringbuf_Pop_Element` removing the matched
element wherever it sits: find the first packet satisfying `p`, return its
frame encoding `f` and the ring with that element removed. -/
def mstp_reply_walk (p : MstpPduPacket → Bool) (f : MstpPduPacket → Nat) :
    List MstpPduPacket → Option (Nat × List MstpPduPacket)
  | [] => none
  | pkt :: rest =>
    if p pkt then some (f pkt, rest)
    else
      match mstp_reply_walk p f rest with
      | none => none
      | some (n, rest2) => some (n, pkt :: rest2)

/-- `MSTP_Get_Reply`: search the PDU ring for the reply to the DER currently
in `InputBuffer`; when a match exists, frame-encode the first matching packet
into `OutputBuffer`, remove it from the ring and return the frame length;
otherwise return 0 with the ring unchanged. -/
def MSTP_Get_Reply (δ : NpduDecoder) (input : List Nat)
    (dataLength sourceAddr outSize thisStation : Nat)
    (queue : List MstpPduPacket) : Nat × List MstpPduPacket :=
  match mstp_reply_walk (mstp_reply_matches δ input dataLength sourceAddr)
      (fun pkt =>
        MSTP_Create_Frame outSize (mstp_frame_type_of pkt)
          pkt.destination_mac thisStation pkt.length)
      queue with
  | none => (0, queue)
  | some r => r

/-- The `mstp_port_struct_t` fields read by the SNAP capture tool. -/
structure SnapPort where
  FrameType : Nat
  DestinationAddress : Nat
  SourceAddress : Nat
  DataLength : Nat
  HeaderCRCActual : Nat
  DataCRCActualMSB : Nat
  DataCRCActualLSB : Nat
  InputBuffer : List Nat
  InputBufferSize : Nat
deriving Repr, DecidableEq

/-- `snap_received_packet`: the octets of the Ethernet SNAP packet the Linux
capture tool writes for one captured MS/TP frame (destination and source
Ethernet addresses carry the MS/TP MACs in their last octet, octets 12-13 are
the 802.3 length, octets 14-21 the SNAP header, octets 22-30 the 9-octet
MS/TP header preamble, then data and data-CRC octets when data is present). -/
def snap_received_packet (p : SnapPort) : List Nat :=
  let max_data :=
    if p.InputBufferSize < p.DataLength then p.InputBufferSize
    else p.DataLength
  let body :=
    if p.DataLength != 0 then
      p.InputBuffer.take max_data ++ [p.DataCRCActualMSB, p.DataCRCActualLSB]
    else []
  let mtu_len := 31 + body.length
  [0, 0, 0, 0, 0, p.DestinationAddress,
   0, 0, 0, 0, 0, p.SourceAddress,
   ((mtu_len - 14) / 256) % 256, (mtu_len - 14) % 256,
   0xAA, 0xAA, 0x03, 0x00, 0x10, 0x90, 0x00, 0x01,
   0x00, 0x00, 0x80,
   p.FrameType, p.DestinationAddress, p.SourceAddress,
   (p.DataLength / 256) % 256, p.DataLength % 256,
   p.HeaderCRCActual] ++ body

/-- A concrete NPDU decoder instance used to evaluate the reply-match
predicate on closed inputs: APDU at offset 0, not a network message,
protocol version 1, no routing information. -/
def trivialNpduDecode : NpduDecoder := fun _ _ =>
  { offset := 0
    network_layer_message := false
    protocol_version := 1
    src_net := 0
    src_len := 0
    src_adr := []
    dest_net := 0
    dest_len := 0
    dest_adr := [] }

/-- Bit 2 of an octet, read through `land` with mask 4 as the source macro
`BACNET_DATA_EXPECTING_REPLY` does, equals `Nat.testBit` at position 2. -/
theorem land_four_ne_zero_iff_testBit (n : Nat) :
    (Nat.land n 4 != 0) = Nat.testBit n 2 := by
  have h4 : (4 : Nat) = 2 ^ 2 := by norm_num
  have h := Nat.and_two_pow n 2
  rcases hb : Nat.testBit n 2 with _ | _
  · have : Nat.land n 4 = 0 := by
      simpa [HAnd.hAnd, AndOp.and, h4, hb] using h
    simp [this]
  · have : Nat.land n 4 = 4 := by
      simpa [HAnd.hAnd, AndOp.and, h4, hb] using h
    simp [this]

/-- C10: both address setters preserve the invariant
`This_Station ≤ Nmax_master ≤ 127`; `dlmstp_set_mac_address` accepts only
addresses at most 127, sets `This_Station`, and raises `Nmax_master` exactly
when the new address exceeds it; `dlmstp_set_max_master` accepts only values
at most 127 and at least `This_Station`, leaving the port unchanged
otherwise. -/
theorem dlmstp_address_setters_spec (s : MstpPortConfig) (v : Nat)
    (hinv : s.This_Station ≤ s.Nmax_master ∧ s.Nmax_master ≤ 127) :
    ((dlmstp_set_mac_address s v).This_Station ≤
        (dlmstp_set_mac_address s v).Nmax_master ∧
      (dlmstp_set_mac_address s v).Nmax_master ≤ 127) ∧
    ((dlmstp_set_max_master s v).This_Station ≤
        (dlmstp_set_max_master s v).Nmax_master ∧
      (dlmstp_set_max_master s v).Nmax_master ≤ 127) ∧
    (v ≤ 127 →
      (dlmstp_set_mac_address s v).This_Station = v ∧
      (dlmstp_set_mac_address s v).Nmax_master = max s.Nmax_master v ∧
      (dlmstp_set_mac_address s v).Nmax_info_frames = s.Nmax_info_frames) ∧
    (127 < v → dlmstp_set_mac_address s v = s) ∧
    (v ≤ 127 → s.This_Station ≤ v →
      dlmstp_set_max_master s v = { s with Nmax_master := v }) ∧
    (¬(v ≤ 127 ∧ s.This_Station ≤ v) → dlmstp_set_max_master s v = s) := by
  obtain ⟨h1, h2⟩ := hinv
  unfold dlmstp_set_mac_address dlmstp_set_max_master
  split_ifs <;> simp_all <;> omega

/-- C10 witness: concrete instantiation of the setter specification at
`This_Station = 3`, `Nmax_master = 10`, new MAC address `42`. -/
theorem dlmstp_address_setters_spec_witness :
    (3 : Nat) ≤ 10 ∧ (10 : Nat) ≤ 127 ∧
    (dlmstp_set_mac_address ⟨3, 10, 1⟩ 42).This_Station = 42 ∧
    (dlmstp_set_mac_address ⟨3, 10, 1⟩ 42).Nmax_master = max 10 42 := by
  refine ⟨by decide, by decide, ?_, ?_⟩
  · exact ((dlmstp_address_setters_spec ⟨3, 10, 1⟩ 42
      ⟨by decide, by decide⟩).2.2.1 (by decide)).1
  · exact ((dlmstp_address_setters_spec ⟨3, 10, 1⟩ 42
      ⟨by decide, by decide⟩).2.2.1 (by decide)).2.1

/-- C7 counterexample: setting the baud rate to 76800 - a member of the
claimed accepted set - leaves the configuration unchanged, so the configured
rate still reads back as 9600, not 76800. -/
theorem dlmstp_set_baud_rate_76800_ignored :
    dlmstp_set_baud_rate { RS485_Baud := B9600 } 76800 =
      { RS485_Baud := B9600 } ∧
    dlmstp_baud_rate (dlmstp_set_baud_rate { RS485_Baud := B9600 } 76800) =
      9600 := by
  constructor <;> rfl

/-- C7 (amended): setting the baud rate to any member of
{9600, 19200, 38400, 57600, 115200} updates the configured RS-485 baud to
that rate (it reads back through `dlmstp_baud_rate`); any other value -
including 76800 - leaves the configuration unchanged. -/
theorem dlmstp_set_baud_rate_spec (s : RS485Config) (baud : Nat) :
    (baud = 9600 ∨ baud = 19200 ∨ baud = 38400 ∨ baud = 57600 ∨
        baud = 115200 →
      dlmstp_baud_rate (dlmstp_set_baud_rate s baud) = baud) ∧
    (¬(baud = 9600 ∨ baud = 19200 ∨ baud = 38400 ∨ baud = 57600 ∨
        baud = 115200) →
      dlmstp_set_baud_rate s baud = s) := by
  constructor
  · rintro (rfl | rfl | rfl | rfl | rfl) <;> rfl
  · intro h
    push_neg at h
    obtain ⟨n1, n2, n3, n4, n5⟩ := h
    unfold dlmstp_set_baud_rate
    rw [if_neg, if_neg, if_neg, if_neg, if_neg] <;> simp_all

/-- C7 witness: concrete instantiation of the amended baud specification at
the accepted rate 19200 and the rejected rate 300. -/
theorem dlmstp_set_baud_rate_spec_witness :
    dlmstp_baud_rate (dlmstp_set_baud_rate { RS485_Baud := B9600 } 19200) =
      19200 ∧
    dlmstp_set_baud_rate { RS485_Baud := B9600 } 300 =
      { RS485_Baud := B9600 } := by
  constructor
  · exact (dlmstp_set_baud_rate_spec { RS485_Baud := B9600 } 19200).1
      (by tauto)
  · exact (dlmstp_set_baud_rate_spec { RS485_Baud := B9600 } 300).2
      (by simp)

/-- C4: `dlmstp_send_pdu` with a valid PDU (at least the two octets up to the
NPDU control byte): when the ring is full it returns 0 and leaves the ring
unchanged; otherwise it returns `pdu_len` and appends exactly one element
whose payload is the first `pdu_len` octets of the PDU, whose destination MAC
is `dest->mac[0]`, and whose `data_expecting_reply` flag is bit 2 of the NPDU
control octet at offset 1. -/
theorem dlmstp_send_pdu_spec (cap : Nat) (queue : List MstpPduPacket)
    (dest : BACNET_ADDRESS) (pdu : List Nat) (pdu_len : Nat)
    (h2 : 2 ≤ pdu_len) (hlen : pdu_len ≤ pdu.length) :
    (cap ≤ queue.length → dlmstp_send_pdu cap queue dest pdu pdu_len =
      (0, queue)) ∧
    (queue.length < cap →
      (dlmstp_send_pdu cap queue dest pdu pdu_len).1 = pdu_len ∧
      (dlmstp_send_pdu cap queue dest pdu pdu_len).2 = queue ++
        [{ buffer := pdu.take pdu_len
           length := pdu_len
           destination_mac := byteAt dest.mac 0
           data_expecting_reply := Nat.testBit (byteAt pdu 1) 2 }] ∧
      (pdu.take pdu_len).length = pdu_len ∧
      (dlmstp_send_pdu cap queue dest pdu pdu_len).2.take queue.length =
        queue) := by
  constructor
  · intro h
    unfold dlmstp_send_pdu
    rw [if_neg (by omega)]
  · intro h
    unfold dlmstp_send_pdu
    rw [if_pos h]
    refine ⟨rfl, ?_, ?_, ?_⟩
    · simp [land_four_ne_zero_iff_testBit]
    · simp [hlen]
    · simp [land_four_ne_zero_iff_testBit, List.take_left]

/-- C4 witness: concrete instantiation with capacity 8, an empty ring, and a
4-octet PDU whose control octet has bit 2 set. -/
theorem dlmstp_send_pdu_spec_witness :
    (dlmstp_send_pdu 8 [] ⟨1, [9], 0, 0, []⟩ [1, 4, 7, 7] 4).1 = 4 ∧
    (dlmstp_send_pdu 8 [] ⟨1, [9], 0, 0, []⟩ [1, 4, 7, 7] 4).2 =
      [{ buffer := [1, 4, 7, 7]
         length := 4
         destination_mac := 9
         data_expecting_reply := Nat.testBit 4 2 }] := by
  have h := (dlmstp_send_pdu_spec 8 [] ⟨1, [9], 0, 0, []⟩ [1, 4, 7, 7] 4
    (by decide) (by decide)).2 (by decide)
  refine ⟨h.1, ?_⟩
  rw [h.2.1]
  rfl

/-- Adding nanoseconds to a timespec preserves the represented total time:
both normalisation branches of `timespec_add_ns` move exactly one second
between the fields. -/
theorem timespec_add_ns_toNanos (ts : Timespec) (ns : Int) :
    (timespec_add_ns ts ns).toNanos = ts.toNanos + ns := by
  unfold timespec_add_ns Timespec.toNanos NS_PER_S
  dsimp only
  split_ifs <;> simp <;> ring

/-- C5: the semaphore deadline computed by `get_abstime` is the current time
plus `min(timeout, 1000)` milliseconds; on a timed-out wait `dlmstp_receive`
returns 0 writing neither `src` nor `pdu` and leaving the slot unchanged; on
a successful wait with a ready slot of non-zero length it copies the slot's
address and payload out, clears `ready`, and returns the slot's `pdu_len`. -/
theorem dlmstp_receive_timeout_spec (now : Timespec) (timeout : Nat)
    (slot : ReceivePacket) (packets max_pdu : Nat) :
    (get_abstime now timeout).toNanos =
      now.toNanos + 1000000 * ((min timeout 1000 : Nat) : Int) ∧
    dlmstp_receive slot packets max_pdu false =
      { ret := 0, src_out := none, pdu_out := none, slot := slot
        mstp_packets := packets } ∧
    (slot.ready = true → slot.pdu_len ≠ 0 →
      dlmstp_receive slot packets max_pdu true =
        { ret := slot.pdu_len
          src_out := some slot.address
          pdu_out := some slot.pdu
          slot := { slot with ready := false }
          mstp_packets := packets + 1 }) := by
  refine ⟨?_, ?_, ?_⟩
  · unfold get_abstime
    rw [timespec_add_ns_toNanos]
    have hm : ((if timeout > 1000 then 1000 else timeout : Nat) : Int) =
        ((min timeout 1000 : Nat) : Int) := by
      split_ifs <;> simp <;> omega
    rw [hm]
  · rfl
  · intro hr hl
    unfold dlmstp_receive
    simp [hr, hl]

/-- C5 witness: concrete instantiation with a 1500 ms timeout (capped to
1000 ms) and a ready slot of length 3. -/
theorem dlmstp_receive_timeout_spec_witness :
    (get_abstime ⟨7, 0⟩ 1500).toNanos =
      (Timespec.toNanos ⟨7, 0⟩) + 1000000 * ((min 1500 1000 : Nat) : Int) ∧
    dlmstp_receive ⟨true, default, [1, 2, 3], 3⟩ 0 50 true =
      { ret := 3
        src_out := some (default : BACNET_ADDRESS)
        pdu_out := some [1, 2, 3]
        slot := ⟨false, default, [1, 2, 3], 3⟩
        mstp_packets := 1 } := by
  constructor
  · exact (dlmstp_receive_timeout_spec ⟨7, 0⟩ 1500 ⟨true, default, [1, 2, 3], 3⟩
      0 50).1
  · exact (dlmstp_receive_timeout_spec ⟨7, 0⟩ 1500 ⟨true, default, [1, 2, 3], 3⟩
      0 50).2.2 rfl (by decide)

/-- C6: `MSTP_Put_Receive` drops the new frame, changing nothing and
returning 0, while the slot is still `ready`; otherwise it copies at most
`sizeof(Receive_Packet.pdu)` octets of `InputBuffer` into the slot (cells
past the copy keep their old octets), fills the source address (broadcast 255
gives `mac_len = 0`, unicast gives `mac_len = 1` with the MAC in `mac[0]`),
sets `ready` and signals the receive semaphore. -/
theorem mstp_put_receive_spec (input : List Nat)
    (dataLength sourceAddr : Nat) (slot : ReceivePacket) :
    (slot.ready = true →
      MSTP_Put_Receive input dataLength sourceAddr slot =
        { ret := 0, slot := slot, signalled := false }) ∧
    (slot.ready = false →
      (MSTP_Put_Receive input dataLength sourceAddr slot).slot.pdu =
        input.take (min dataLength RX_PDU_SIZE) ++
          slot.pdu.drop (min dataLength RX_PDU_SIZE) ∧
      min dataLength RX_PDU_SIZE ≤ RX_PDU_SIZE ∧
      (MSTP_Put_Receive input dataLength sourceAddr slot).slot.address =
        dlmstp_fill_bacnet_address sourceAddr ∧
      (sourceAddr = 255 →
        (MSTP_Put_Receive input dataLength sourceAddr slot).slot.address.mac_len
          = 0) ∧
      (sourceAddr ≠ 255 →
        (MSTP_Put_Receive input dataLength sourceAddr slot).slot.address.mac_len
          = 1 ∧
        byteAt
          (MSTP_Put_Receive input dataLength sourceAddr slot).slot.address.mac
          0 = sourceAddr) ∧
      (MSTP_Put_Receive input dataLength sourceAddr slot).slot.ready = true ∧
      (MSTP_Put_Receive input dataLength sourceAddr slot).signalled = true) := by
  constructor
  · intro hr
    unfold MSTP_Put_Receive
    rw [if_pos hr]
  · intro hr
    have hmin : (if dataLength > RX_PDU_SIZE then RX_PDU_SIZE else dataLength)
        = min dataLength RX_PDU_SIZE := by
      split_ifs <;> omega
    unfold MSTP_Put_Receive
    rw [if_neg (by simp [hr])]
    refine ⟨by simp [hmin], by omega, by simp, ?_, ?_, by simp, by simp⟩
    · intro hb
      simp [dlmstp_fill_bacnet_address, hb, MSTP_BROADCAST_ADDRESS]
    · intro hb
      have : (sourceAddr == MSTP_BROADCAST_ADDRESS) = false := by
        simp [MSTP_BROADCAST_ADDRESS, hb]
      simp [dlmstp_fill_bacnet_address, this, byteAt]

/-- C6 witness: concrete instantiations - a ready slot drops the frame, and a
free slot takes a 3-octet frame from unicast source 7. -/
theorem mstp_put_receive_spec_witness :
    MSTP_Put_Receive [1, 2, 3] 3 7 ⟨true, default, [0, 0, 0, 0], 4⟩ =
      { ret := 0, slot := ⟨true, default, [0, 0, 0, 0], 4⟩
        signalled := false } ∧
    (MSTP_Put_Receive [1, 2, 3] 3 7 ⟨false, default, [9, 9, 9, 9], 0⟩).slot.pdu
      = [1, 2, 3, 9] ∧
    (MSTP_Put_Receive [1, 2, 3] 3 7
      ⟨false, default, [9, 9, 9, 9], 0⟩).slot.address.mac_len = 1 := by
  refine ⟨?_, ?_, ?_⟩
  · exact (mstp_put_receive_spec [1, 2, 3] 3 7
      ⟨true, default, [0, 0, 0, 0], 4⟩).1 rfl
  · have h := ((mstp_put_receive_spec [1, 2, 3] 3 7
      ⟨false, default, [9, 9, 9, 9], 0⟩).2 rfl).1
    rw [h]
    rfl
  · exact (((mstp_put_receive_spec [1, 2, 3] 3 7
      ⟨false, default, [9, 9, 9, 9], 0⟩).2 rfl).2.2.2.2.1 (by decide)).1

/-- C9: `dlmstp_receive` ignores its `max_pdu` argument entirely - the result
is identical for any two values - and on a successful wait with a ready
non-empty slot it writes the whole fixed-size slot array (of
`sizeof(Receive_Packet.pdu)` octets) through the `pdu` pointer; consequently
the returned `pdu_len` can exceed `max_pdu`. -/
theorem dlmstp_receive_max_pdu_irrelevant :
    (∀ (slot : ReceivePacket) (packets m1 m2 : Nat) (w : Bool),
      dlmstp_receive slot packets m1 w = dlmstp_receive slot packets m2 w) ∧
    (∀ (slot : ReceivePacket) (packets m : Nat),
      slot.ready = true → slot.pdu_len ≠ 0 →
      slot.pdu.length = RX_PDU_SIZE →
      (dlmstp_receive slot packets m true).pdu_out = some slot.pdu ∧
      ((dlmstp_receive slot packets m true).pdu_out.map List.length) =
        some RX_PDU_SIZE) ∧
    (∃ (slot : ReceivePacket) (packets m : Nat),
      m < (dlmstp_receive slot packets m true).ret) := by
  refine ⟨fun slot packets m1 m2 w => rfl, ?_, ?_⟩
  · intro slot packets m hr hl hsz
    unfold dlmstp_receive
    simp [hr, hl, hsz]
  · refine ⟨⟨true, default, [], 100⟩, 0, 0, ?_⟩
    decide

/-- C9 witness: concrete instantiation showing the octets written through the
`pdu` pointer number exactly `RX_PDU_SIZE` for a full-size slot. -/
theorem dlmstp_receive_max_pdu_irrelevant_witness :
    ((dlmstp_receive ⟨true, default, List.replicate RX_PDU_SIZE 0, 7⟩ 0 3
      true).pdu_out.map List.length) = some RX_PDU_SIZE := by
  exact (dlmstp_receive_max_pdu_irrelevant.2.1
    ⟨true, default, List.replicate RX_PDU_SIZE 0, 7⟩ 0 3 rfl (by decide)
    (by simp)).2

/-- C8: every SNAP packet the capture tool emits carries the SNAP header
DSAP=0xAA, SSAP=0xAA, control=0x03, OUI 00:10:90, PID 0x0001 at octets
14..21, followed by the 9-octet MS/TP header preamble (delta-time 0x0000,
marker 0x80, frame type, destination, source, length high, length low,
header CRC) at octets 22..30; when `DataLength` is non-zero the data octets
follow, then the two data-CRC octets. -/
theorem snap_received_packet_layout (p : SnapPort)
    (hlen : p.DataLength ≤ p.InputBufferSize) :
    ((snap_received_packet p).drop 14).take 8 =
      [0xAA, 0xAA, 0x03, 0x00, 0x10, 0x90, 0x00, 0x01] ∧
    ((snap_received_packet p).drop 22).take 9 =
      [0x00, 0x00, 0x80, p.FrameType, p.DestinationAddress, p.SourceAddress,
       (p.DataLength / 256) % 256, p.DataLength % 256, p.HeaderCRCActual] ∧
    (p.DataLength ≠ 0 →
      (snap_received_packet p).drop 31 =
        p.InputBuffer.take p.DataLength ++
          [p.DataCRCActualMSB, p.DataCRCActualLSB]) := by
  refine ⟨rfl, rfl, ?_⟩
  intro hd
  unfold snap_received_packet
  have h1 : (p.DataLength != 0) = true := by simp [hd]
  have h2 : ¬(p.InputBufferSize < p.DataLength) := by omega
  simp [h1, h2]

/-- C8 witness: concrete instantiation on a captured 3-octet frame. -/
theorem snap_received_packet_layout_witness :
    ((snap_received_packet ⟨6, 1, 2, 3, 0x55, 0xAB, 0xCD, [10, 11, 12, 13],
      4⟩).drop 31) = [10, 11, 12, 0xAB, 0xCD] := by
  have h := (snap_received_packet_layout
    ⟨6, 1, 2, 3, 0x55, 0xAB, 0xCD, [10, 11, 12, 13], 4⟩ (by decide)).2.2
    (by decide)
  rw [h]
  rfl

/-- C2: for a non-segmented Confirmed-Request request and a Simple-ACK reply,
neither a network-layer message, the reply-match predicate holds exactly when
the NPDU protocol versions agree, the BACnet addresses agree, the request
octet at APDU offset+2 equals the reply octet at offset+1 (invoke IDs), and
the request octet at offset+3 equals the reply octet at offset+2 (service
choices). -/
theorem dlmstp_compare_simple_ack_iff (δ : NpduDecoder)
    (req : List Nat) (reqLen srcA : Nat) (rep : List Nat)
    (repLen dstA : Nat)
    (hreqN : (δ req reqLen).network_layer_message = false)
    (hrepN : (δ rep repLen).network_layer_message = false)
    (hconf : Nat.land (byteAt req (δ req reqLen).offset) 0xF0 =
      PDU_TYPE_CONFIRMED_SERVICE_REQUEST)
    (hseg : Nat.land (byteAt req (δ req reqLen).offset) 8 = 0)
    (hack : Nat.land (byteAt rep (δ rep repLen).offset) 0xF0 =
      PDU_TYPE_SIMPLE_ACK) :
    dlmstp_compare_data_expecting_reply δ req reqLen srcA rep repLen dstA =
      true ↔
    ((δ req reqLen).protocol_version = (δ rep repLen).protocol_version ∧
      bacnet_address_same (der_request_address δ req reqLen srcA)
        (der_reply_address δ rep repLen dstA) = true ∧
      byteAt req ((δ req reqLen).offset + 2) =
        byteAt rep ((δ rep repLen).offset + 1) ∧
      byteAt req ((δ req reqLen).offset + 3) =
        byteAt rep ((δ rep repLen).offset + 2)) := by
  unfold dlmstp_compare_data_expecting_reply der_compare_finish
  dsimp only
  rw [hreqN, hrepN, hconf, hseg, hack]
  simp
  tauto

/-- C2 witness: a concrete non-segmented Confirmed-Request (invoke 7, service
12) matched against a concrete Simple-ACK with the same invoke ID, service
choice, protocol version and address, under the concrete decoder. -/
theorem dlmstp_compare_simple_ack_iff_witness :
    dlmstp_compare_data_expecting_reply trivialNpduDecode
      [0, 0, 7, 12] 4 5 [0x20, 7, 12] 3 5 = true := by
  exact (dlmstp_compare_simple_ack_iff trivialNpduDecode
    [0, 0, 7, 12] 4 5 [0x20, 7, 12] 3 5 rfl rfl (by decide) (by decide)
    (by decide)).mpr ⟨by decide, by decide, by decide, by decide⟩

/-- C3: the code slip - a reply whose APDU type is Confirmed-Request (a
forwarded confirmed request) never matches, because the reply-type switch of
`dlmstp_compare_data_expecting_reply` has no case for it and falls through to
`default: return false`.  At this concrete input the request is a
Confirmed-Request, the reply is byte-for-byte the same PDU (so protocol
versions, addresses, invoke IDs and service choices all agree), yet the
predicate returns false. -/
theorem dlmstp_compare_confirmed_reply_false :
    Nat.land (byteAt ([0, 0, 7, 12] : List Nat)
      (trivialNpduDecode [0, 0, 7, 12] 4).offset) 0xF0 =
      PDU_TYPE_CONFIRMED_SERVICE_REQUEST ∧
    bacnet_address_same
      (der_request_address trivialNpduDecode [0, 0, 7, 12] 4 5)
      (der_reply_address trivialNpduDecode [0, 0, 7, 12] 4 5) = true ∧
    (trivialNpduDecode [0, 0, 7, 12] 4).protocol_version =
      (trivialNpduDecode [0, 0, 7, 12] 4).protocol_version ∧
    dlmstp_compare_data_expecting_reply trivialNpduDecode
      [0, 0, 7, 12] 4 5 [0, 0, 7, 12] 4 5 = false := by
  refine ⟨by decide, by decide, rfl, by decide⟩

/-- `MSTP_Create_Frame` succeeds (returns a non-zero octet count) whenever
the payload fits the MS/TP limit and the output buffer. -/
theorem mstp_create_frame_ne_zero (out_size frame_type dest src
    data_len : Nat) (h1 : data_len ≤ 501)
    (h2 : 8 + data_len + 2 ≤ out_size) :
    MSTP_Create_Frame out_size frame_type dest src data_len ≠ 0 := by
  unfold MSTP_Create_Frame
  split_ifs <;> omega

/-- The walk returns `none` exactly when no queued packet matches. -/
theorem mstp_reply_walk_eq_none_iff (p : MstpPduPacket → Bool)
    (f : MstpPduPacket → Nat) (q : List MstpPduPacket) :
    mstp_reply_walk p f q = none ↔ ∀ pkt ∈ q, p pkt = false := by
  induction q with
  | nil => simp [mstp_reply_walk]
  | cons a t ih =>
    by_cases ha : p a = true
    · simp [mstp_reply_walk, ha]
    · have ha2 : p a = false := by simp_all
      cases hw : mstp_reply_walk p f t with
      | none =>
        simp only [mstp_reply_walk, ha2, if_false, hw, Bool.false_eq_true]
        simpa [ha2] using ih.mp hw
      | some r =>
        simp only [mstp_reply_walk, ha2, if_false, hw, Bool.false_eq_true]
        have : ¬∀ pkt ∈ t, p pkt = false := by
          intro hall
          rw [ih.mpr hall] at hw
          exact Option.noConfusion hw
        simp only [List.mem_cons]
        constructor
        · intro h
          exact absurd h (by simp)
        · intro h
          exact absurd (fun pkt hm => h pkt (Or.inr hm)) this

/-- When the walk succeeds, the ring splits as the non-matching prefix, the
first matching packet, and the untouched tail; the returned length is that
packet's frame encoding and the returned ring is the packet's removal. -/
theorem mstp_reply_walk_eq_some (p : MstpPduPacket → Bool)
    (f : MstpPduPacket → Nat) (q : List MstpPduPacket) (n : Nat)
    (q2 : List MstpPduPacket) (h : mstp_reply_walk p f q = some (n, q2)) :
    ∃ l1 pkt l2, q = l1 ++ pkt :: l2 ∧ (∀ x ∈ l1, p x = false) ∧
      p pkt = true ∧ n = f pkt ∧ q2 = l1 ++ l2 := by
  induction q generalizing n q2 with
  | nil => simp [mstp_reply_walk] at h
  | cons a t ih =>
    by_cases ha : p a = true
    · rw [mstp_reply_walk, if_pos ha] at h
      have h1 : f a = n ∧ t = q2 := by
        have := Option.some.inj h
        exact ⟨congrArg Prod.fst this, congrArg Prod.snd this⟩
      exact ⟨[], a, t, by simp, by simp, ha, h1.1.symm, by simp [h1.2.symm]⟩
    · have ha2 : p a = false := by simp_all
      rw [mstp_reply_walk, if_neg (by simp [ha2])] at h
      cases hw : mstp_reply_walk p f t with
      | none =>
        rw [hw] at h
        exact Option.noConfusion h
      | some r =>
        obtain ⟨m, rest2⟩ := r
        rw [hw] at h
        have h2 : m = n ∧ a :: rest2 = q2 := by
          have := Option.some.inj h
          exact ⟨congrArg Prod.fst this, congrArg Prod.snd this⟩
        obtain ⟨l1, pkt, l2, ht, hl1, hpkt, hn, hrest⟩ := ih m rest2 hw
        refine ⟨a :: l1, pkt, l2, by simp [ht], ?_, hpkt, h2.1 ▸ hn, ?_⟩
        · intro x hx
          rcases List.mem_cons.mp hx with rfl | hx2
          · exact ha2
          · exact hl1 x hx2
        · rw [← h2.2, hrest]
          simp

/-- C1: for a port whose `OutputBuffer` can hold any queued frame (each
queued payload at most 501 octets), `MSTP_Get_Reply` returns a non-zero
length exactly when some element of the PDU ring satisfies the reply-match
predicate against the DER request in `InputBuffer`; and when it does, the
first matching element in head-to-tail order has been removed from the ring
with every other element left in place. -/
theorem mstp_get_reply_spec (δ : NpduDecoder) (input : List Nat)
    (dataLength sourceAddr outSize thisStation : Nat)
    (queue : List MstpPduPacket)
    (hfit : ∀ pkt ∈ queue, pkt.length ≤ 501 ∧ 8 + pkt.length + 2 ≤ outSize) :
    ((MSTP_Get_Reply δ input dataLength sourceAddr outSize thisStation
        queue).1 ≠ 0 ↔
      ∃ pkt ∈ queue,
        mstp_reply_matches δ input dataLength sourceAddr pkt = true) ∧
    ((MSTP_Get_Reply δ input dataLength sourceAddr outSize thisStation
        queue).1 ≠ 0 →
      ∃ l1 pkt l2, queue = l1 ++ pkt :: l2 ∧
        (∀ x ∈ l1,
          mstp_reply_matches δ input dataLength sourceAddr x = false) ∧
        mstp_reply_matches δ input dataLength sourceAddr pkt = true ∧
        (MSTP_Get_Reply δ input dataLength sourceAddr outSize thisStation
          queue).2 = l1 ++ l2) := by
  unfold MSTP_Get_Reply
  cases hw : mstp_reply_walk
      (mstp_reply_matches δ input dataLength sourceAddr)
      (fun pkt => MSTP_Create_Frame outSize (mstp_frame_type_of pkt)
        pkt.destination_mac thisStation pkt.length) queue with
  | none =>
    have hall := (mstp_reply_walk_eq_none_iff _ _ _).mp hw
    constructor
    · simp only [ne_eq, not_true_eq_false, false_iff]
      rintro ⟨pkt, hmem, hmatch⟩
      rw [hall pkt hmem] at hmatch
      exact Bool.noConfusion hmatch
    · intro h
      exact absurd rfl h
  | some r =>
    obtain ⟨n, q2⟩ := r
    obtain ⟨l1, pkt, l2, hq, hl1, hpkt, hn, hq2⟩ :=
      mstp_reply_walk_eq_some _ _ _ _ _ hw
    have hmem : pkt ∈ queue := by
      rw [hq]
      exact List.mem_append_right _ (List.mem_cons_self _ _)
    have hne : n ≠ 0 := by
      rw [hn]
      exact mstp_create_frame_ne_zero outSize (mstp_frame_type_of pkt)
        pkt.destination_mac thisStation pkt.length (hfit pkt hmem).1
        (hfit pkt hmem).2
    constructor
    · simp only [ne_eq]
      constructor
      · intro _
        exact ⟨pkt, hmem, hpkt⟩
      · intro _
        exact hne
    · intro _
      exact ⟨l1, pkt, l2, hq, hl1, hpkt, hq2⟩

/-- C1 witness: a concrete two-element ring whose second element matches the
DER request under the concrete decoder; the returned length is non-zero. -/
theorem mstp_get_reply_spec_witness :
    (MSTP_Get_Reply trivialNpduDecode [0, 0, 7, 12] 4 5 600 3
      [⟨[0x20, 8, 12], 3, 5, false⟩, ⟨[0x20, 7, 12], 3, 5, false⟩]).1 ≠ 0 := by
  exact (mstp_get_reply_spec trivialNpduDecode [0, 0, 7, 12] 4 5 600 3
    [⟨[0x20, 8, 12], 3, 5, false⟩, ⟨[0x20, 7, 12], 3, 5, false⟩]
    (by decide)).1.mpr
    ⟨⟨[0x20, 7, 12], 3, 5, false⟩, by decide, by decide⟩
